import Mathlib

/-
Verification of the DEVOPS_AI_Agent_FastAPI conversational pipeline.

Shallow embedding of the repository sources:
  agent_tools/shell_tool.py   (whitelist-guarded subprocess execution)
  agent_tools/file_tool.py    (project-root-confined file read and write)
  agent_tools/github_tool.py  (GitHub REST wrapper)
  simplechat_agent.py         (router_node, tool_node, llm_node)

Conventions of the embedding:
  - Python dicts and JSON payloads are the inductive type J below; dict
    literals keep the key order of the source.
  - External effects (subprocess, filesystem, network, environment,
    clock) are oracle parameters; a function that can raise a Python
    exception returns Except String.
  - Python str values are Lean String; character-level reasoning uses
    String.data.  Messages are treated as single-line text, so the regex
    dot and dollar behave as plain wildcard and end-of-string.
-/

namespace DevAgent

/-- JSON-like values: the shape of Python dicts, lists and scalars used
by the agent.  Object fields keep insertion order, as Python dicts do. -/
inductive J where
  | null : J
  | b : Bool → J
  | s : String → J
  | n : Int → J
  | arr : List J → J
  | obj : List (String × J) → J

/-- First-match lookup in an ordered field list (Python dict indexing). -/
def jLookup : List (String × J) → String → Option J
  | [], _ => none
  | (k, v) :: rest, key => if k = key then some v else jLookup rest key

/-- Python dict.get with a default. -/
def jLookupD (fields : List (String × J)) (key : String) (dflt : J) : J :=
  (jLookup fields key).getD dflt

/-- Python truthiness of a JSON value. -/
def jTruthy : J → Bool
  | .null => false
  | .b v => v
  | .s v => v != ""
  | .n v => v != 0
  | .arr xs => !xs.isEmpty
  | .obj fs => !fs.isEmpty

/-- Python str.startswith: the second string is a prefix of the first. -/
def pyStartsWith (s w : String) : Bool :=
  w.data.isPrefixOf s.data

/-- The whitespace class \s as Python matches ASCII text (also the
character set str.strip removes). -/
def pyWs (c : Char) : Bool :=
  c == ' ' || c == '\t' || c == '\n' || c == '\r' ||
  c == '\x0b' || c == '\x0c'

/-- Python str.strip(): drop whitespace from both ends. -/
def pyStrip (s : String) : String :=
  String.mk (((s.data.dropWhile pyWs).reverse.dropWhile pyWs).reverse)

/-- Python str.lower() on ASCII text. -/
def pyLower (s : String) : String :=
  String.mk (s.data.map Char.toLower)

/-- Maximal nonempty runs of non-separator characters: the combination
of a string split with the removal of empty pieces. -/
def splitTokens (isSep : Char → Bool) : List Char → List Char → List String
  | [], acc => if acc.isEmpty then [] else [String.mk acc.reverse]
  | c :: rest, acc =>
      if isSep c then
        (if acc.isEmpty then splitTokens isSep rest []
         else String.mk acc.reverse :: splitTokens isSep rest [])
      else splitTokens isSep rest (c :: acc)

/-! ### agent_tools/shell_tool.py -/

/-- Whitelisted commands (prefix match allowed), from shell_tool.py. -/
def WHITELIST : List String :=
  ["ls", "pwd", "cat", "echo", "git status", "git rev-parse", "git log",
   "python", "pip", "npm", "pytest"]

/-- Outcome of the spawned subprocess: normal completion with captured
streams, a timeout (the process is killed), or an exception raised while
creating the process.  This is the oracle for asyncio subprocess
execution. -/
inductive ExecOutcome where
  | success (stdout stderr : String) : ExecOutcome
  | timedOut : ExecOutcome
  | raised (msg : String) : ExecOutcome
deriving DecidableEq

/-- shlex.split, modelled for quote-free commands: split on whitespace
and drop empty tokens. -/
def shlexSplit (s : String) : List String :=
  splitTokens pyWs s.data []

/-- The result dict run_shell builds from the subprocess outcome. -/
def execResultJ : ExecOutcome → J
  | .success out err =>
      J.obj [("ok", J.b true), ("stdout", J.s out), ("stderr", J.s err)]
  | .timedOut =>
      J.obj [("ok", J.b false), ("error", J.s "timeout"),
             ("stdout", J.s ""), ("stderr", J.s "Command timed out")]
  | .raised e =>
      J.obj [("ok", J.b false), ("error", J.s "exec_error"),
             ("stdout", J.s ""), ("stderr", J.s e)]

/-- run_shell from shell_tool.py.  The returned Bool records whether the
function reached the subprocess-creation call (false on the whitelist
rejection path, where no process is spawned). -/
def run_shell (exec : List String → ExecOutcome) (command : String) : J × Bool :=
  let cmd_trim := pyStrip command
  let allowed := WHITELIST.any (fun w => pyStartsWith cmd_trim w)
  if allowed then
    let args := shlexSplit cmd_trim
    (execResultJ (exec args), true)
  else
    (J.obj [("ok", J.b false), ("error", J.s "command_not_whitelisted"),
            ("stdout", J.s ""), ("stderr", J.s "Command not allowed")], false)

/-! ### agent_tools/file_tool.py

Paths are modelled as lists of POSIX components; PROJECT_ROOT is an
absolute, already-resolved directory given as a component list.  Symbolic
links are not modelled, so Path.resolve is pure dot-dot elimination. -/

/-- Components of a path string as pathlib parses it: split on the
separator, dropping empty and single-dot components. -/
def pathComps (s : String) : List String :=
  (splitTokens (fun c => c == '/') s.data []).filter (fun c => c ≠ ".")

/-- Whether the path string is absolute. -/
def pathIsAbs (s : String) : Bool :=
  pyStartsWith s "/"

/-- Path.resolve on an absolute component list: eliminate dot-dot, where
dot-dot at the filesystem root stays at the root. -/
def resolveComps (cs : List String) : List String :=
  cs.foldl (fun acc c => if c = ".." then acc.dropLast else acc ++ [c]) []

/-- The absolute components of (PROJECT_ROOT / path).resolve(): a
pathlib join replaces everything when the right side is absolute. -/
def resolveAgainst (root : List String) (path : String) : List String :=
  resolveComps (if pathIsAbs path then pathComps path else root ++ pathComps path)

/-- safe_path from file_tool.py: the resolved path must be the project
root or strictly below it (PROJECT_ROOT in p.parents), otherwise a
PermissionError is raised. -/
def safe_path (root : List String) (path : String) : Except String (List String) :=
  let p := resolveAgainst root path
  if root.isPrefixOf p then .ok p
  else .error "Attempt to access outside project root"

/-- read_file from file_tool.py over a filesystem oracle mapping
resolved paths to contents (none = file does not exist).  The PermissionError
raised by safe_path is caught and stringified by the except branch. -/
def read_file (root : List String) (fs : List String → Option String)
    (path : String) : J :=
  match safe_path root path with
  | .error e => J.obj [("ok", J.b false), ("error", J.s e), ("content", J.s "")]
  | .ok p =>
      match fs p with
      | none => J.obj [("ok", J.b false), ("error", J.s "not_found"), ("content", J.s "")]
      | some content => J.obj [("ok", J.b true), ("content", J.s content)]

/-- write_file from file_tool.py: returns the result dict and the
filesystem after the call (unchanged when the write is rejected).
Directory creation has no observable effect in this filesystem model, so
the create_dirs flag is not tracked. -/
def write_file (root : List String) (fs : List String → Option String)
    (path content : String) : J × (List String → Option String) :=
  match safe_path root path with
  | .error e => (J.obj [("ok", J.b false), ("error", J.s e)], fs)
  | .ok p => (J.obj [("ok", J.b true)], fun q => if q = p then some content else fs q)

/-! ### agent_tools/github_tool.py

_safe_request wraps every HTTP call: a network-level exception becomes
the dict with ok=false, error, status=None; otherwise ok reflects the
status code and data is the parsed JSON body (or the raw text when the
body does not parse, which the J.s case covers). -/

/-- The response the requests library produces for one call: either a
status code with a body, or a raised exception. -/
inductive SafeResp where
  | resp (status : Int) (body : J) : SafeResp
  | raised (e : String) : SafeResp

/-- The GitHub API calls the tool issues; each carries the parameters
that determine the URL and payload. -/
inductive GhReq where
  | repoInfo (owner repo : String) : GhReq
  | createRepo (name descr : String) (priv : Bool) : GhReq
  | getContents (owner repo path : String) (refBranch : J) : GhReq
  | putContents (owner repo path : String) (body : J) : GhReq
  | userRepos (page : Nat) : GhReq
  | branchList (owner repo : String) : GhReq
  | createPull (owner repo : String) (payload : J) : GhReq

/-- The ok flag _safe_request computes: status in (200, 201, 204). -/
def statusOk (st : Int) : Bool :=
  st == 200 || st == 201 || st == 204

/-- r["ok"] of the _safe_request result dict. -/
def respOk : SafeResp → Bool
  | .resp st _ => statusOk st
  | .raised _ => false

/-- r["data"] / r.get("data"): present only for a non-exception response. -/
def respData : SafeResp → Option J
  | .resp _ body => some body
  | .raised _ => none

/-- r.get("status") rendered as JSON (None for the exception shape). -/
def respStatusJ : SafeResp → J
  | .resp st _ => J.n st
  | .raised _ => J.null

/-- r.get("data") rendered as JSON (None for the exception shape). -/
def respDataJ : SafeResp → J
  | .resp _ body => body
  | .raised _ => J.null

/-- A Python value interpolated into an f-string: None prints as the
four characters None. -/
def optPyStr : Option String → String
  | none => "None"
  | some s => s

/-- get_default_branch from github_tool.py.  When the call succeeds the
code does r["data"].get("default_branch", "main"), which raises
AttributeError when the body is not a dict; Except.error is that raise. -/
def get_default_branch (net : GhReq → SafeResp) (owner repo : String) :
    Except String J :=
  match net (.repoInfo owner repo) with
  | .raised _ => .ok (J.s "main")
  | .resp st body =>
      if statusOk st then
        match body with
        | J.obj fields => .ok (jLookupD fields "default_branch" (J.s "main"))
        | _ => .error "AttributeError: object has no attribute get"
      else .ok (J.s "main")

/-- create_repository from github_tool.py.  On the failure path the code
reads r["data"], a key the exception-shaped _safe_request dict does not
have, so a network exception turns into a KeyError raise. -/
def create_repository (net : GhReq → SafeResp) (name descr : String)
    (priv : Bool) : Except String J :=
  match net (.createRepo name descr priv) with
  | .resp st body =>
      if statusOk st then .ok (J.obj [("ok", J.b true), ("data", body)])
      else .ok (J.obj [("ok", J.b false), ("status", J.n st), ("error", body)])
  | .raised _ => .error "KeyError: data"

/-- base64.b64encode of the UTF-8 encoding of a string, standard
alphabet with = padding. -/
def b64Alphabet : List Char :=
  "ABCDEFGHIJKLMNOPQRSTUVWXYZabcdefghijklmnopqrstuvwxyz0123456789+/".data

/-- One base64 output character for a 6-bit index. -/
def b64Char (i : Nat) : Char :=
  b64Alphabet.getD i '='

/-- Encode a byte list three bytes at a time. -/
def b64Bytes : List Nat → String
  | [] => ""
  | [a] =>
      String.mk [b64Char (a / 4), b64Char (a % 4 * 16)] ++ "=="
  | [a, b] =>
      String.mk [b64Char (a / 4), b64Char (a % 4 * 16 + b / 16),
                 b64Char (b % 16 * 4)] ++ "="
  | a :: b :: c :: rest =>
      String.mk [b64Char (a / 4), b64Char (a % 4 * 16 + b / 16),
                 b64Char (b % 16 * 4 + c / 64), b64Char (c % 64)] ++ b64Bytes rest

/-- base64.b64encode(content.encode()).decode() from the file-update body. -/
def b64encode (s : String) : String :=
  b64Bytes (s.toUTF8.toList.map UInt8.toNat)

/-- create_or_update_file from github_tool.py.  The branch lookup may
raise (see get_default_branch); the final requests.put is not wrapped in
a try block, so its network exception also propagates. -/
def create_or_update_file (net : GhReq → SafeResp) (owner repo : Option String)
    (path content message : String) : Except String J :=
  match owner, repo with
  | some o, some r =>
      if o = "" ∨ r = "" ∨ path = "" then
        .ok (J.obj [("ok", J.b false), ("error", J.s "Missing owner/repo/path")])
      else
        match get_default_branch net o r with
        | .error e => .error e
        | .ok branch =>
            let getR := net (.getContents o r path branch)
            let body0 := [("message", J.s message),
                          ("content", J.s (b64encode content)),
                          ("branch", branch)]
            let body :=
              match getR with
              | .resp st (J.obj fields) =>
                  if statusOk st then
                    match jLookup fields "sha" with
                    | some sha => if jTruthy sha then body0 ++ [("sha", sha)] else body0
                    | none => body0
                  else body0
              | _ => body0
            match net (.putContents o r path (J.obj body)) with
            | .raised e => .error e
            | .resp st respBody =>
                .ok (J.obj [("ok", J.b (st == 200 || st == 201)),
                            ("status", J.n st), ("data", respBody)])
  | _, _ =>
      .ok (J.obj [("ok", J.b false), ("error", J.s "Missing owner/repo/path")])

/-- The per-repository summary list_repos collects; Python raises
AttributeError when an entry is not a dict, which none models. -/
def reposEntry : J → Option J
  | J.obj fields =>
      some (J.obj [("name", jLookupD fields "name" J.null),
                   ("full_name", jLookupD fields "full_name" J.null),
                   ("private", jLookupD fields "private" (J.b false)),
                   ("html_url", jLookupD fields "html_url" J.null)])
  | _ => none

/-- Append the summaries of one page to the accumulator (none when some
entry raises). -/
def collectEntries : List J → List J → Option (List J)
  | [], acc => some acc
  | e :: rest, acc =>
      match reposEntry e with
      | some v => collectEntries rest (acc ++ [v])
      | none => none

/-- The summaries of a list of entries that all map successfully. -/
def entriesOf (l : List J) : List J :=
  l.filterMap reposEntry

/-- The success dict list_repos returns. -/
def listReposDone (repos : List J) : J :=
  J.obj [("ok", J.b true), ("total", J.n repos.length),
         ("repositories", J.arr repos)]

/-- Outcome of the list_repos loop: a returned dict, a raised exception,
or fuel exhaustion (the while-loop did not finish within the given
number of iterations). -/
inductive LROut where
  | out (v : J) : LROut
  | raised (e : String) : LROut
  | spin : LROut

/-- The while-loop of list_repos: request page, stop with an error dict
when the request is not ok, break when the body is not a list, collect
the page, break when the page is shorter than per_page = 100, otherwise
continue with the next page. -/
def listReposAux (net : Nat → SafeResp) : Nat → Nat → List J → LROut
  | 0, _, _ => .spin
  | fuel + 1, page, acc =>
      let r := net page
      if respOk r then
        match respData r with
        | some (J.arr data) =>
            match collectEntries data acc with
            | none => .raised "AttributeError: object has no attribute get"
            | some acc2 =>
                if data.length < 100 then .out (listReposDone acc2)
                else listReposAux net fuel (page + 1) acc2
        | _ => .out (listReposDone acc)
      else
        .out (J.obj [("ok", J.b false), ("status", respStatusJ r),
                     ("error", respDataJ r)])

/-- list_repos from github_tool.py (the username parameter of the
Python function is unused: the authenticated endpoint is always
queried).  Pagination starts at page 1 with an empty accumulator. -/
def list_repos (net : Nat → SafeResp) (fuel : Nat) : LROut :=
  listReposAux net fuel 1 []

/-- list_branches from github_tool.py.  On success the comprehension
[b.get("name") for b in r["data"]] raises when the body is not a list
of dicts; on failure r["data"] raises KeyError for the exception shape. -/
def branchNames : List J → Option (List J)
  | [] => some []
  | J.obj fields :: rest =>
      (branchNames rest).map (fun ns => jLookupD fields "name" J.null :: ns)
  | _ => none

/-- list_branches itself. -/
def list_branches (net : GhReq → SafeResp) (owner repo : String) :
    Except String J :=
  match net (.branchList owner repo) with
  | .raised _ => .error "KeyError: data"
  | .resp st body =>
      if statusOk st then
        match body with
        | J.arr items =>
            match branchNames items with
            | some ns => .ok (J.obj [("ok", J.b true), ("branches", J.arr ns)])
            | none => .error "AttributeError: object has no attribute get"
        | _ => .error "TypeError: object is not iterable"
      else .ok (J.obj [("ok", J.b false), ("status", J.n st), ("error", body)])

/-- create_pull_request from github_tool.py.  base arrives as a JSON
value because the caller may substitute the get_default_branch result;
the falsy guard covers a missing or empty argument.  As in
create_repository, a network exception raises KeyError on the failure
path. -/
def create_pull_request (net : GhReq → SafeResp)
    (owner repo head : Option String) (base : J) (title body : String) :
    Except String J :=
  match owner, repo, head with
  | some o, some r, some h =>
      if o = "" ∨ r = "" ∨ h = "" ∨ jTruthy base = false then
        .ok (J.obj [("ok", J.b false), ("error", J.s "Missing owner/repo/head/base")])
      else
        let payload := J.obj [("title", J.s title), ("head", J.s h),
                              ("base", base), ("body", J.s body)]
        match net (.createPull o r payload) with
        | .resp st respBody =>
            if statusOk st then .ok (J.obj [("ok", J.b true), ("data", respBody)])
            else .ok (J.obj [("ok", J.b false), ("status", J.n st), ("error", respBody)])
        | .raised _ => .error "KeyError: data"
  | _, _, _ =>
      .ok (J.obj [("ok", J.b false), ("error", J.s "Missing owner/repo/head/base")])

/-! ### simplechat_agent.py — router_node

The router lower-cases the stripped message and tests an ordered list of
regular expressions.  The patterns use word boundaries, the dot
wildcard, alternation over literal phrases, optional literal groups,
whitespace classes and greedy character-class tokens; each is modelled
directly below on the character list of the message.  Case-insensitive
extraction scans the lower-cased characters while capturing from the
original characters (lower-casing is per-character, so the two lists
stay aligned). -/

/-- The regex word class \w (ASCII, as every pattern in the router is
ASCII). -/
def isWordChar (c : Char) : Bool :=
  c.isAlphanum || c == '_'

/-- A literal pattern (with the dot as wildcard) matches at the head of
the text. -/
def patAt : List Char → List Char → Bool
  | [], _ => true
  | _ :: _, [] => false
  | p :: ps, h :: hs => (p == '.' || p == h) && patAt ps hs

/-- No word character right after the first pat.length characters (the
closing word boundary; every bounded pattern ends in a word character). -/
def endBoundary (pat hay : List Char) : Bool :=
  match hay.drop pat.length with
  | [] => true
  | c :: _ => !isWordChar c

/-- Search for a word-bounded occurrence of the pattern anywhere in the
text; prev is the character before the current position. -/
def bsearchFrom (pat : List Char) : Option Char → List Char → Bool
  | _, [] => false
  | prev, h :: hs =>
      ((match prev with
        | none => true
        | some c => !isWordChar c) && patAt pat (h :: hs) && endBoundary pat (h :: hs))
      || bsearchFrom pat (some h) hs

/-- A word-bounded pattern occurs somewhere in the text. -/
def bsearch (pat : String) (hay : List Char) : Bool :=
  bsearchFrom pat.data none hay

/-- A plain (unbounded) substring occurs somewhere in the text. -/
def subSearch (pat : String) : List Char → Bool
  | [] => pat.data.isEmpty
  | h :: hs => patAt pat.data (h :: hs) || subSearch pat (h :: hs |>.tail)

/-- An anchored pattern: start of text, then \s*, then the literal,
optionally requiring a closing word boundary. -/
def startWsPat (pat : String) (needBoundary : Bool) (hay : List Char) : Bool :=
  let rest := hay.dropWhile pyWs
  patAt pat.data rest && (!needBoundary || endBoundary pat.data rest)

/-- Rule 1 patterns: read file / readfile / show file / open file. -/
def matchReadRule (lm : List Char) : Bool :=
  bsearch "read file" lm || bsearch "readfile" lm ||
  bsearch "show file" lm || bsearch "open file" lm

/-- Rule 2 patterns: write/create/add/update/edit file. -/
def matchWriteRule (lm : List Char) : Bool :=
  bsearch "write file" lm || bsearch "create file" lm || bsearch "add file" lm ||
  bsearch "update file" lm || bsearch "edit file" lm

/-- Rule 3 patterns: create repo(sitory) / make (a )repo / new repo. -/
def matchCreateRepoRule (lm : List Char) : Bool :=
  bsearch "create repo" lm || bsearch "create repository" lm ||
  bsearch "make a repo" lm || bsearch "make repo" lm || bsearch "new repo" lm

/-- Rule 4 patterns: list/show repos, my github repos, repositories. -/
def matchListReposRule (lm : List Char) : Bool :=
  bsearch "list repos" lm || bsearch "show repos" lm ||
  bsearch "my github repos" lm || bsearch "repositories" lm

/-- Rule 5 patterns: update readme (twice, identical on the lower-cased
text) and edit README.md with the regex dot wildcard. -/
def matchUpdateReadmeRule (lm : List Char) : Bool :=
  bsearch "update readme" lm || bsearch "edit readme.md" lm

/-- Rule 6 patterns: create/open pr, create/open pull request, make a
pull request. -/
def matchCreatePrRule (lm : List Char) : Bool :=
  bsearch "create pr" lm || bsearch "create pull request" lm ||
  bsearch "open pr" lm || bsearch "open pull request" lm ||
  bsearch "make a pull request" lm

/-- Rule 7 patterns: list/show branches, branches. -/
def matchBranchesRule (lm : List Char) : Bool :=
  bsearch "list branches" lm || bsearch "show branches" lm || bsearch "branches" lm

/-- Rule 8 patterns: push my code / push code / push repo. -/
def matchPushRule (lm : List Char) : Bool :=
  bsearch "push my code" lm || bsearch "push code" lm || bsearch "push repo" lm

/-- Rule 9 patterns: fix my repo / fix repo / make tests pass / run tests. -/
def matchFixRule (lm : List Char) : Bool :=
  bsearch "fix my repo" lm || bsearch "fix repo" lm ||
  bsearch "make tests pass" lm || bsearch "run tests" lm

/-- Rule 10 patterns: anchored run:, execute, shell, anchored ls or git,
plain pytest or npm. -/
def matchShellRule (lm : List Char) : Bool :=
  startWsPat "run:" false lm || bsearch "execute" lm || bsearch "shell" lm ||
  startWsPat "ls" true lm || startWsPat "git" true lm ||
  subSearch "pytest" lm || subSearch "npm" lm

/-! Extraction helpers.  Each models one re.search call of the router,
scanning the lower-cased characters in lockstep with the originals. -/

/-- re.search of VERB (?:file )?(.+)$ for a list of case-insensitive
verb literals (each given with its trailing space): at the first verb
occurrence take what follows, preferring to consume a leading file
token when at least one character remains after it; if nothing follows
the verb at all, the scan moves on (the dot does not match past the end
of a single-line message, so the group needs one character). -/
def verbTailScan (verbs : List (List Char)) : List Char → List Char → Option (List Char)
  | low@(_ :: ls), orig@(_ :: os) =>
      match verbs.findSome? (fun v => if v.isPrefixOf low then some v.length else none) with
      | some n =>
          let rl := low.drop n
          let ro := orig.drop n
          if ("file ".data).isPrefixOf rl ∧ 5 < rl.length then some (ro.drop 5)
          else if rl ≠ [] then some ro
          else verbTailScan verbs ls os
      | none => verbTailScan verbs ls os
  | _, _ => none

/-- The verb alternatives of the file-write extraction (note the source
alternation omits add even though the rule patterns include it).  The
alternatives start with distinct letters, so at most one matches at any
position and a failed continuation correctly advances the scan. -/
def writeVerbs : List (List Char) :=
  ["write ".data, "create ".data, "update ".data, "edit ".data]

/-- The tail of the colon form: greedy non-colon capture, the colon,
\s* and a nonempty greedy remainder.  The non-colon class cannot cross
the first colon, and giving back whitespace one character is the only
backtracking that can make the remainder nonempty. -/
def colonForm (rl ro : List Char) : Option (List Char × List Char) :=
  match rl.findIdx? (fun c => c == ':') with
  | none => none
  | some i =>
      if i = 0 then none
      else
        let afterL := rl.drop (i + 1)
        let afterO := ro.drop (i + 1)
        let k := (afterL.takeWhile pyWs).length
        if k < afterL.length then some (ro.take i, afterO.drop k)
        else if afterL ≠ [] then some (ro.take i, afterO.drop (afterL.length - 1))
        else none

/-- re.search of (?:write|create|update|edit) (?:file )?([^:]+):\s*(.+)$:
at each verb occurrence, first try treating a leading file token as the
optional group, then without it; otherwise advance. -/
def writeColonScan : List Char → List Char → Option (List Char × List Char)
  | low@(_ :: ls), orig@(_ :: os) =>
      (match writeVerbs.findSome? (fun v => if v.isPrefixOf low then some v.length else none) with
       | some n =>
           let rl := low.drop n
           let ro := orig.drop n
           let attempt :=
             if ("file ".data).isPrefixOf rl then
               match colonForm (rl.drop 5) (ro.drop 5) with
               | some pc => some pc
               | none => colonForm rl ro
             else colonForm rl ro
           match attempt with
           | some pc => some pc
           | none => writeColonScan ls os
       | none => writeColonScan ls os)
  | _, _ => none

/-- The character class [A-Za-z0-9._-] of the repository-name token. -/
def isRepoNameChar (c : Char) : Bool :=
  c.isAlphanum || c == '.' || c == '_' || c == '-'

/-- \s+ then a nonempty greedy token of the given class, capturing from
the original characters. -/
def wsToken (cls : Char → Bool) (rl ro : List Char) : Option (List Char) :=
  let k := (rl.takeWhile pyWs).length
  if k = 0 then none
  else
    let tok := ((rl.drop k).takeWhile cls).length
    if tok = 0 then none else some ((ro.drop k).take tok)

/-- re.search of (?:repo|repository|repo called|repo named)\s+token: at
each occurrence of repo, alternation order tries the bare word first and
repository second; the called/named alternatives can never fire, since
any text they accept already satisfies the first alternative. -/
def repoNameScan : List Char → List Char → Option (List Char)
  | low@(_ :: ls), orig@(_ :: os) =>
      if ("repo".data).isPrefixOf low then
        match wsToken isRepoNameChar (low.drop 4) (orig.drop 4) with
        | some t => some t
        | none =>
            if ("repository".data).isPrefixOf low then
              match wsToken isRepoNameChar (low.drop 10) (orig.drop 10) with
              | some t => some t
              | none => repoNameScan ls os
            else repoNameScan ls os
      else repoNameScan ls os
  | _, _ => none

/-- The character class [A-Za-z0-9_-] of the owner/repo tokens (no dot). -/
def isOwnerChar (c : Char) : Bool :=
  c.isAlphanum || c == '_' || c == '-'

/-- re.search of ([A-Za-z0-9_-]+)/([A-Za-z0-9_-]+): leftmost position
where a nonempty greedy class run is followed by a slash and another
nonempty run.  Shortening the first run never helps, because the
character it would expose is a class character, not a slash. -/
def ownerRepoScan : List Char → Option (List Char × List Char)
  | [] => none
  | l@(c :: cs) =>
      (if isOwnerChar c then
        let t1 := l.takeWhile isOwnerChar
        match l.drop t1.length with
        | '/' :: r2 =>
            let t2 := r2.takeWhile isOwnerChar
            if t2 ≠ [] then some (t1, t2) else ownerRepoScan cs
        | _ => ownerRepoScan cs
      else ownerRepoScan cs)

/-- The class [A-Za-z0-9_\-\/]+ of the from/to branch tokens. -/
def isBranchChar (c : Char) : Bool :=
  c.isAlphanum || c == '_' || c == '-' || c == '/'

/-- re.search of from\s+(T)\s+to\s+(T) on the original message (searched
without re.IGNORECASE in the source).  The greedy tokens contain no
whitespace, so shortening them never lets the following \s+ match and
the scan soundly advances on failure. -/
def fromToScan : List Char → Option (List Char × List Char)
  | [] => none
  | l@(_ :: cs) =>
      (if ("from".data).isPrefixOf l then
        let r1 := l.drop 4
        let k1 := (r1.takeWhile pyWs).length
        let t1 := ((r1.drop k1).takeWhile isBranchChar).length
        if k1 = 0 ∨ t1 = 0 then fromToScan cs
        else
          let r2 := r1.drop (k1 + t1)
          let k2 := (r2.takeWhile pyWs).length
          if k2 = 0 then fromToScan cs
          else
            match r2.drop k2 with
            | 't' :: 'o' :: r3 =>
                let k3 := (r3.takeWhile pyWs).length
                let t2 := ((r3.drop k3).takeWhile isBranchChar).length
                if k3 = 0 ∨ t2 = 0 then fromToScan cs
                else some ((r1.drop k1).take t1, (r3.drop k3).take t2)
            | _ => fromToScan cs
      else fromToScan cs)

/-- The README extraction after the literal update readme with its
trailing space: optional for owner/repo group, optional with-or-colon
connective, \s*, optional nonempty remainder.  Everything after the
literal is optional, so the regex always matches at the first literal
occurrence.  Returns ((owner, repo)?, content?). -/
def readmeTail (rl ro : List Char) :
    Option (List Char × List Char) × Option (List Char) :=
  let spec :=
    if ("for".data).isPrefixOf rl then
      let k := ((rl.drop 3).takeWhile pyWs).length
      if k = 0 then none
      else
        let body := rl.drop (3 + k)
        let bodyO := ro.drop (3 + k)
        let t1 := (body.takeWhile isOwnerChar).length
        if t1 = 0 then none
        else
          match body.drop t1 with
          | '/' :: r2 =>
              let t2 := (r2.takeWhile isOwnerChar).length
              if t2 = 0 then none
              else some (bodyO.take t1, (bodyO.drop (t1 + 1)).take t2, 3 + k + t1 + 1 + t2)
          | _ => none
    else none
  let consumed := match spec with
                  | some (_, _, n) => n
                  | none => 0
  let rl2 := rl.drop consumed
  let ro2 := ro.drop consumed
  let conn :=
    if (" with".data).isPrefixOf rl2 then 5
    else if (":".data).isPrefixOf rl2 then 1
    else 0
  let rl3 := rl2.drop conn
  let ro3 := ro2.drop conn
  let ws := (rl3.takeWhile pyWs).length
  let content := if rl3.drop ws = [] then none else some (ro3.drop ws)
  (spec.map (fun x => (x.1, x.2.1)), content)

/-- re.search of update readme (?:for\s+(o/r))?(?: with|:)?\s*(.+)? with
re.IGNORECASE: locate the first occurrence of the literal (with its
trailing space) on the lower-cased text and parse the optional tail. -/
def readmeScan : List Char → List Char →
    Option (Option (List Char × List Char) × Option (List Char))
  | low@(_ :: ls), orig@(_ :: os) =>
      if ("update readme ".data).isPrefixOf low then
        some (readmeTail (low.drop 14) (orig.drop 14))
      else readmeScan ls os
  | _, _ => none

/-- re.search of run:\s*(.+)$ with re.IGNORECASE: text after the first
run: occurrence, with leading whitespace consumed greedily but giving
one character back when the remainder would be empty. -/
def runCmdScan : List Char → List Char → Option (List Char)
  | low@(_ :: ls), orig@(_ :: os) =>
      if ("run:".data).isPrefixOf low then
        let al := low.drop 4
        let ao := orig.drop 4
        let k := (al.takeWhile pyWs).length
        if k < al.length then some (ao.drop k)
        else if al ≠ [] then some (ao.drop (al.length - 1))
        else runCmdScan ls os
      else runCmdScan ls os
  | _, _ => none

/-! The router itself. -/

/-- A tool call: the tool name and the args dict (string-or-None
values), with the key order of the source dict literals. -/
structure ToolCall where
  tool : String
  args : List (String × Option String)
deriving DecidableEq

/-- Lower-cased character list of the stripped message, the text every
rule pattern is matched against. -/
def routerKey (raw : String) : List Char :=
  (pyLower (pyStrip raw)).data

/-- Python x or y on optional strings: empty strings are falsy. -/
def pyOrS (a b : Option String) : Option String :=
  match a with
  | some s => if s = "" then b else a
  | none => b

/-- Python (x or default) collapsing to a plain string. -/
def orDefault (a : Option String) (d : String) : String :=
  match a with
  | some s => if s = "" then d else s
  | none => d

/-- os.getenv(name) or None, as the PR rule computes its fallbacks. -/
def envOrNone (env : String → Option String) (name : String) : Option String :=
  match env name with
  | some s => if s = "" then none else some s
  | none => none

/-- String view of a lower/original extraction result. -/
def capture (c : List Char) : String := String.mk c

/-- router_node from simplechat_agent.py: strip the last message text,
lower-case it, and test the ten rules in source order, returning the
tool call of the first rule whose pattern list matches (none when no
rule matches).  env is the os.getenv oracle. -/
def router_node (env : String → Option String) (raw : String) : Option ToolCall :=
  let msg := pyStrip raw
  let lm := routerKey raw
  let low := (pyLower msg).data
  let orig := msg.data
  if matchReadRule lm then
    let path := (verbTailScan ["read ".data] low orig).map (fun c => pyStrip (capture c))
    some ⟨"file", [("action", some "read"), ("path", path), ("text", some msg)]⟩
  else if matchWriteRule lm then
    match writeColonScan low orig with
    | some (p, c) =>
        some ⟨"file", [("action", some "write"), ("path", some (pyStrip (capture p))),
                       ("content", some (pyStrip (capture c))), ("text", some msg)]⟩
    | none =>
        let path := (verbTailScan writeVerbs low orig).map (fun c => pyStrip (capture c))
        some ⟨"file", [("action", some "write"), ("path", path),
                       ("content", none), ("text", some msg)]⟩
  else if matchCreateRepoRule lm then
    let name := (repoNameScan low orig).map capture
    some ⟨"github", [("action", some "create_repo"), ("name", name), ("text", some msg)]⟩
  else if matchListReposRule lm then
    some ⟨"github", [("action", some "list_repos"), ("text", some msg)]⟩
  else if matchUpdateReadmeRule lm then
    let parsed := readmeScan low orig
    let ownerRepo :=
      match parsed with
      | some (some (o, r), _) => some (capture o, capture r)
      | _ => none
    let content :=
      match parsed with
      | some (_, some c) => some (pyStrip (capture c))
      | _ => none
    some ⟨"github", [("action", some "update_file"),
                     ("owner", ownerRepo.map Prod.fst),
                     ("repo", ownerRepo.map Prod.snd),
                     ("path", some "README.md"), ("content", content),
                     ("text", some msg)]⟩
  else if matchCreatePrRule lm then
    let ownerRepo := (ownerRepoScan orig).map (fun x => (capture x.1, capture x.2))
    let fromTo := fromToScan orig
    let owner :=
      match ownerRepo with
      | some x => some x.1
      | none => envOrNone env "GITHUB_OWNER"
    let repo :=
      match ownerRepo with
      | some x => some x.2
      | none => envOrNone env "GITHUB_REPO"
    some ⟨"github", [("action", some "create_pr"), ("owner", owner), ("repo", repo),
                     ("head", (fromTo.map (fun x => capture x.1))),
                     ("base", (fromTo.map (fun x => capture x.2))),
                     ("text", some msg)]⟩
  else if matchBranchesRule lm then
    let ownerRepo := (ownerRepoScan orig).map (fun x => (capture x.1, capture x.2))
    let owner :=
      match ownerRepo with
      | some x => some x.1
      | none => env "GITHUB_OWNER"
    let repo :=
      match ownerRepo with
      | some x => some x.2
      | none => env "GITHUB_REPO"
    some ⟨"github", [("action", some "list_branches"), ("owner", owner),
                     ("repo", repo), ("text", some msg)]⟩
  else if matchPushRule lm then
    some ⟨"shell", [("action", some "push_intent"),
                    ("command", some "git status -b"), ("text", some msg)]⟩
  else if matchFixRule lm then
    some ⟨"repo", [("action", some "fix_repo"), ("text", some msg)]⟩
  else if matchShellRule lm then
    let cmd :=
      match runCmdScan low orig with
      | some c => pyStrip (capture c)
      | none => msg
    some ⟨"shell", [("action", some "exec"), ("command", some cmd), ("text", some msg)]⟩
  else none

/-! ### simplechat_agent.py — tool_node -/

/-- The {tool, result} dict the executor wraps around each outcome. -/
structure ToolResult where
  tool : String
  result : J

/-- args.get(key): none both when the key is missing and when it holds
None. -/
def aget (args : List (String × Option String)) (key : String) : Option String :=
  (args.lookup key).join

/-- Outcome of one tool_node call: the returned tool_result (possibly
None), a propagated Python exception, or a list_repos loop that did not
finish within the page fuel. -/
inductive TNOut where
  | done (tr : Option ToolResult) : TNOut
  | raised (e : String) : TNOut
  | noFuel : TNOut

/-- The oracles tool_node needs: subprocess execution, the project root
and filesystem of the file tool, the GitHub network, os.getenv, the two
clocks read by the PR branch, and the iteration bound for the
list_repos loop. -/
structure Ctx where
  exec : List String → ExecOutcome
  root : List String
  fs : List String → Option String
  net : GhReq → SafeResp
  env : String → Option String
  nowEpoch : Nat
  nowIso : String
  pageFuel : Nat

/-- Lift the Except of a github_tool call into the executor outcome. -/
def ghDone (tool : String) : Except String J → TNOut
  | .ok v => .done (some ⟨tool, v⟩)
  | .error e => .raised e

/-- The shell block of tool_node (the body of its if tool == "shell"
statement). -/
def shellBlock (ctx : Ctx) (args : List (String × Option String)) : TNOut :=
  let action := aget args "action"
  match (match args.lookup "command" with
         | none => some ""
         | some v => v) with
  | none => .raised "AttributeError: NoneType has no attribute strip"
  | some cmd =>
      if action = some "push_intent" then
        .done (some ⟨"shell",
          J.obj [("ok", J.b true), ("type", J.s "push_intent_checked"),
                 ("status", (run_shell ctx.exec cmd).1)]⟩)
      else .done (some ⟨"shell", (run_shell ctx.exec cmd).1⟩)

/-- The file block of tool_node. -/
def fileBlock (ctx : Ctx) (args : List (String × Option String)) : TNOut :=
  let action := aget args "action"
  if action = some "read" then
    let path := orDefault (pyOrS (aget args "path") (aget args "text")) ""
    .done (some ⟨"file", read_file ctx.root ctx.fs path⟩)
  else if action = some "write" then
    let path := aget args "path"
    let content := orDefault (aget args "content") ""
    match path with
    | none => .done (some ⟨"file", J.obj [("ok", J.b false), ("error", J.s "missing_path")]⟩)
    | some p =>
        if p = "" then
          .done (some ⟨"file", J.obj [("ok", J.b false), ("error", J.s "missing_path")]⟩)
        else .done (some ⟨"file", (write_file ctx.root ctx.fs p content).1⟩)
  else .done none

/-- The github block of tool_node. -/
def githubBlock (ctx : Ctx) (args : List (String × Option String)) : TNOut :=
  let action := aget args "action"
  if action = some "list_repos" then
        match list_repos (fun p => ctx.net (.userRepos p)) ctx.pageFuel with
        | .out v => .done (some ⟨"github", v⟩)
        | .raised e => .raised e
        | .spin => .noFuel
      else if action = some "create_repo" then
        match aget args "name" with
        | none => .done (some ⟨"github", J.obj [("ok", J.b false), ("error", J.s "missing_name")]⟩)
        | some n =>
            if n = "" then
              .done (some ⟨"github", J.obj [("ok", J.b false), ("error", J.s "missing_name")]⟩)
            else ghDone "github" (create_repository ctx.net n "Created by AI Agent" false)
      else if action = some "update_file" then
        let owner := pyOrS (aget args "owner") (ctx.env "GITHUB_OWNER")
        let repo := pyOrS (aget args "repo") (ctx.env "GITHUB_REPO")
        let path := orDefault (aget args "path") "README.md"
        let content := orDefault (pyOrS (aget args "content") (aget args "text")) ""
        match repo with
        | none => .done (some ⟨"github", J.obj [("ok", J.b false), ("error", J.s "missing_repo")]⟩)
        | some r =>
            if r = "" then
              .done (some ⟨"github", J.obj [("ok", J.b false), ("error", J.s "missing_repo")]⟩)
            else ghDone "github" (create_or_update_file ctx.net owner (some r) path content "Agent update")
      else if action = some "create_pr" then
        let owner := pyOrS (aget args "owner") (ctx.env "GITHUB_OWNER")
        let repo := pyOrS (aget args "repo") (ctx.env "GITHUB_REPO")
        match repo with
        | none => .done (some ⟨"github", J.obj [("ok", J.b false), ("error", J.s "missing_repo")]⟩)
        | some r =>
            if r = "" then
              .done (some ⟨"github", J.obj [("ok", J.b false), ("error", J.s "missing_repo")]⟩)
            else
              let head :=
                match aget args "head" with
                | none => "agent/auto-" ++ toString ctx.nowEpoch
                | some h => if h = "" then "agent/auto-" ++ toString ctx.nowEpoch else h
              let title := orDefault (aget args "title")
                ("Automated PR by Agent: " ++ ctx.nowIso)
              let body := orDefault (pyOrS (aget args "body") (aget args "text")) ""
              let base :=
                match aget args "base" with
                | none => get_default_branch ctx.net (optPyStr owner) r
                | some b =>
                    if b = "" then get_default_branch ctx.net (optPyStr owner) r
                    else .ok (J.s b)
              match base with
              | .error e => .raised e
              | .ok baseJ =>
                  ghDone "github" (create_pull_request ctx.net owner (some r) (some head) baseJ title body)
      else if action = some "list_branches" then
        let owner := pyOrS (aget args "owner") (ctx.env "GITHUB_OWNER")
        let repo := pyOrS (aget args "repo") (ctx.env "GITHUB_REPO")
        match repo with
        | none => .done (some ⟨"github", J.obj [("ok", J.b false), ("error", J.s "missing_repo")]⟩)
        | some r =>
            if r = "" then
              .done (some ⟨"github", J.obj [("ok", J.b false), ("error", J.s "missing_repo")]⟩)
            else ghDone "github" (list_branches ctx.net (optPyStr owner) r)
  else .done (some ⟨"github", J.obj [("ok", J.b false), ("error", J.s "unknown_action")]⟩)

/-- The repo block of tool_node. -/
def repoBlock (ctx : Ctx) (args : List (String × Option String)) : TNOut :=
  let action := aget args "action"
  if action = some "fix_repo" then
    let tests := (run_shell ctx.exec "pytest -q").1
    let lint := (run_shell ctx.exec "flake8 .").1
    .done (some ⟨"repo", J.obj [("tests", tests), ("lint", lint)]⟩)
  else .done (some ⟨"repo", J.obj [("ok", J.b false), ("error", J.s "unknown_repo_action")]⟩)

/-- tool_node from simplechat_agent.py.  Dispatches on the tool name to
the four if-blocks of the source; a tool or action nothing handles falls
through to tool_result None.  The best-effort head-branch creation
inside the create_pr branch performs only network effects and
contributes nothing to the result, so it has no observable content in
this pure embedding. -/
def tool_node (ctx : Ctx) (tc : Option ToolCall) : TNOut :=
  match tc with
  | none => .done none
  | some t =>
    if t.tool = "shell" then shellBlock ctx t.args
    else if t.tool = "file" then fileBlock ctx t.args
    else if t.tool = "github" then githubBlock ctx t.args
    else if t.tool = "repo" then repoBlock ctx t.args
    else .done none

/-! ### simplechat_agent.py — normalize_message and llm_node -/

/-- A canonical LangChain message: role tag plus content. -/
inductive BMsg where
  | human (content : String) : BMsg
  | ai (content : String) : BMsg
  | system (content : String) : BMsg
deriving DecidableEq

/-- The heterogeneous inputs normalize_message accepts: an already
canonical message, a role/content mapping (dump is the json.dumps
rendering of the whole mapping, used as the fallback content), a bare
string, or any other value through its str form. -/
inductive RawMsg where
  | base (m : BMsg) : RawMsg
  | dict (role typ content text : Option String) (dump : String) : RawMsg
  | str (s : String) : RawMsg
  | other (rendering : String) : RawMsg
deriving DecidableEq

/-- normalize_message from simplechat_agent.py. -/
def normalize_message : RawMsg → BMsg
  | .base m => m
  | .dict role typ content text dump =>
      let r := pyLower (orDefault (pyOrS role typ) "")
      let c :=
        match content with
        | some c => c
        | none => orDefault text ""
      if r = "user" ∨ r = "human" then .human c
      else if r = "assistant" ∨ r = "ai" then .ai c
      else .system (if c = "" then dump else c)
  | .str s => .human s
  | .other rendering => .system rendering

/-- json.dumps with the default separators; the dot-escape cases cover
the characters the agent dicts can contain (non-ASCII escaping is not
modelled). -/
def escChar (c : Char) : String :=
  if c = '"' then "\\\""
  else if c = '\\' then "\\\\"
  else if c = '\n' then "\\n"
  else if c = '\t' then "\\t"
  else if c = '\r' then "\\r"
  else String.singleton c

/-- Escape every character of a string body. -/
def escAll : List Char → String
  | [] => ""
  | c :: rest => escChar c ++ escAll rest

/-- A JSON string literal. -/
def jstr (s : String) : String :=
  "\"" ++ escAll s.data ++ "\""

mutual

/-- json.dumps of a JSON value. -/
def jdump : J → String
  | .null => "null"
  | .b true => "true"
  | .b false => "false"
  | .s v => jstr v
  | .n v => toString v
  | .arr xs => "[" ++ jdumpList xs ++ "]"
  | .obj fields => "\x7b" ++ jdumpFields fields ++ "\x7d"

/-- Comma-separated dump of array elements. -/
def jdumpList : List J → String
  | [] => ""
  | [x] => jdump x
  | x :: rest => jdump x ++ ", " ++ jdumpList rest

/-- Comma-separated dump of object fields with colon separators. -/
def jdumpFields : List (String × J) → String
  | [] => ""
  | [(k, v)] => jstr k ++ ": " ++ jdump v
  | (k, v) :: rest => jstr k ++ ": " ++ jdump v ++ ", " ++ jdumpFields rest

end

/-- The 2000-character cut with the ... marker that llm_node applies to
the rendered tool result (Python slicing counts code points, as
String.data does). -/
def pyTruncate (s : String) : String :=
  if 2000 < s.length then String.mk (s.data.take 2000) ++ "..." else s

/-- The fixed system instruction of the summarizer prompt. -/
def SYSTEM_INSTR : String :=
  "You are an AI DevOps Assistant. Be concise and factual.\n" ++
  "If a TOOL OUTPUT is provided, summarize the final result in one short line for the user.\n" ++
  "Do NOT invent actions or repeat unrelated previous tool outputs.\n" ++
  "If tool_result.ok is false, produce a short error message explaining why."

/-- The state slice llm_node reads. -/
structure ChatStateL where
  messages : List RawMsg
  tool_result : Option ToolResult

/-- The dict shape of a stored tool result, as json.dumps sees it. -/
def toolResultJ (tr : ToolResult) : J :=
  J.obj [("tool", J.s tr.tool), ("result", tr.result)]

/-- The truncated TOOL_OUTPUT rendering of a tool result. -/
def renderToolResult (tr : ToolResult) : String :=
  pyTruncate (jdump (toolResultJ tr))

/-- The prompt llm_node assembles: the fixed instruction, the last
MAX_HISTORY = 12 messages normalized, and, when a tool result is
present, one system message carrying its truncated JSON rendering. -/
def buildPrompt (st : ChatStateL) : List BMsg :=
  let history := st.messages.drop (st.messages.length - 12)
  let base := BMsg.system SYSTEM_INSTR :: history.map normalize_message
  match st.tool_result with
  | none => base
  | some tr => base ++ [BMsg.system ("TOOL_OUTPUT: " ++ renderToolResult tr)]

/-- What the model call returns: a raised exception, or a value in one
of the shapes the normalization cascade unwraps (an object with a
messages attribute, a dict with a messages key, a bare list, or a single
message). -/
inductive ModelOut where
  | raised (e : String) : ModelOut
  | withMsgs (l : List RawMsg) : ModelOut
  | dictMsgs (l : List RawMsg) : ModelOut
  | bareList (l : List RawMsg) : ModelOut
  | single (m : RawMsg) : ModelOut

/-- The returned-shape unwrapping of llm_node. -/
def unwrapModelOut : ModelOut → List RawMsg
  | .raised _ => []
  | .withMsgs l => l
  | .dictMsgs l => l
  | .bareList l => l
  | .single m => [m]

/-- llm_node from simplechat_agent.py: build the prompt, invoke the
model once, and either normalize the returned messages or convert a
raised model exception into the single failure system message. -/
def llm_node (model : List BMsg → ModelOut) (st : ChatStateL) : List BMsg :=
  match model (buildPrompt st) with
  | .raised e => [BMsg.system ("LLM call failed: " ++ e)]
  | out => (unwrapModelOut out).map normalize_message

/-! ## Claims -/

/-- C1 (amended): for every command string whose whitespace-stripped
form does not start with any whitelist entry, run_shell returns the
ok=false, error=command_not_whitelisted dict and never reaches the
subprocess-creation call.  (The stripping is the amendment: the raw
string " ls" starts with no whitelist entry yet is accepted, see the
counterexample.) -/
theorem c1_whitelist_rejection (exec : List String → ExecOutcome) (c : String)
    (h : WHITELIST.any (fun w => pyStartsWith (pyStrip c) w) = false) :
    run_shell exec c =
      (J.obj [("ok", J.b false), ("error", J.s "command_not_whitelisted"),
              ("stdout", J.s ""), ("stderr", J.s "Command not allowed")], false) := by
  unfold run_shell
  simp [h]

/-- C1 witness: rm -rf / is rejected without spawning. -/
theorem c1_whitelist_rejection_witness :
    (WHITELIST.any (fun w => pyStartsWith (pyStrip "rm -rf /") w) = false)
    ∧ run_shell (fun _ => .success "" "") "rm -rf /" =
      (J.obj [("ok", J.b false), ("error", J.s "command_not_whitelisted"),
              ("stdout", J.s ""), ("stderr", J.s "Command not allowed")], false) :=
  ⟨by decide, c1_whitelist_rejection _ _ (by decide)⟩

/-- C1 counterexample: the command " ls" (leading space) does not start
with any whitelist entry, yet run_shell strips it first and spawns the
subprocess, so the claim as stated over raw command strings fails. -/
theorem c1_counterexample :
    (WHITELIST.all (fun w => !pyStartsWith " ls" w) = true)
    ∧ run_shell (fun _ => .success "" "") " ls" =
      (J.obj [("ok", J.b true), ("stdout", J.s ""), ("stderr", J.s "")], true) :=
  ⟨by decide, rfl⟩

/-- C9: the whitelist check is a pure string-prefix test: lsblk and
echoevil are not whitelist entries and their first token is a different
program, yet both are accepted and handed to the subprocess call because
they merely extend the entries ls and echo. -/
theorem c9_prefix_acceptance (exec : List String → ExecOutcome) :
    "lsblk" ∉ WHITELIST
    ∧ pyStartsWith "lsblk" "ls" = true
    ∧ run_shell exec "lsblk" = (execResultJ (exec ["lsblk"]), true)
    ∧ "echoevil" ∉ WHITELIST
    ∧ pyStartsWith "echoevil" "echo" = true
    ∧ run_shell exec "echoevil" = (execResultJ (exec ["echoevil"]), true) :=
  ⟨by decide, by decide, rfl, by decide, by decide, rfl⟩

/-- C2: a path whose resolution against the project root falls outside
the root makes read_file and write_file return the PermissionError text
as an ok=false result, read_file returns a result independent of the
filesystem contents, and write_file leaves the filesystem unchanged. -/
theorem c2_path_confinement (root : List String) (fs : List String → Option String)
    (path content : String)
    (h : root.isPrefixOf (resolveAgainst root path) = false) :
    read_file root fs path =
      J.obj [("ok", J.b false), ("error", J.s "Attempt to access outside project root"),
             ("content", J.s "")]
    ∧ (write_file root fs path content).1 =
      J.obj [("ok", J.b false), ("error", J.s "Attempt to access outside project root")]
    ∧ (write_file root fs path content).2 = fs := by
  unfold read_file write_file safe_path
  simp [h]

/-- C2 witness: dot-dot traversal out of a two-component root. -/
theorem c2_path_confinement_witness :
    (["srv", "proj"].isPrefixOf (resolveAgainst ["srv", "proj"] "../../etc/passwd") = false)
    ∧ read_file ["srv", "proj"] (fun _ => none) "../../etc/passwd" =
      J.obj [("ok", J.b false), ("error", J.s "Attempt to access outside project root"),
             ("content", J.s "")] :=
  ⟨by decide, (c2_path_confinement ["srv", "proj"] (fun _ => none) "../../etc/passwd" "x"
      (by decide)).1⟩

/-- C6: when the model call raises, llm_node swallows the exception and
returns exactly one system message carrying the failure text. -/
theorem c6_summarizer_failure (model : List BMsg → ModelOut) (st : ChatStateL) (e : String)
    (h : model (buildPrompt st) = .raised e) :
    llm_node model st = [BMsg.system ("LLM call failed: " ++ e)]
    ∧ (llm_node model st).length = 1 := by
  unfold llm_node
  rw [h]
  exact ⟨rfl, rfl⟩

/-- C6 witness: a model oracle that always raises. -/
theorem c6_summarizer_failure_witness :
    ((fun _ : List BMsg => ModelOut.raised "boom") (buildPrompt ⟨[], none⟩) = ModelOut.raised "boom")
    ∧ llm_node (fun _ => ModelOut.raised "boom") ⟨[], none⟩ =
      [BMsg.system ("LLM call failed: " ++ "boom")] :=
  ⟨rfl, (c6_summarizer_failure (fun _ => ModelOut.raised "boom") ⟨[], none⟩ "boom" rfl).1⟩

/-- Helper for C3: two prefixes of the same character list are
comparable, and no whitelist entry is comparable with git push, so a
stripped command that starts with git push always fails the whitelist
test. -/
theorem no_push_in_whitelist (s : String) (h : pyStartsWith s "git push" = true) :
    WHITELIST.any (fun w => pyStartsWith s w) = false := by
  unfold pyStartsWith at h ⊢
  rw [List.any_eq_false]
  intro w hw hcontra
  rw [List.isPrefixOf_iff_prefix] at h hcontra
  rcases List.prefix_or_prefix_of_prefix h hcontra with h1 | h1 <;>
    · simp only [WHITELIST, List.mem_cons, List.not_mem_nil, or_false] at hw
      rcases hw with rfl | rfl | rfl | rfl | rfl | rfl | rfl | rfl | rfl | rfl | rfl <;>
        revert h1 <;> decide

/-- C3 (amended): a message that matches a push-intent phrase and none
of the seven earlier router rules is routed to the read-only shell call
git status -b; moreover run_shell rejects, without spawning, every
command whose stripped text starts with git push, so no execution path
of the system runs a mutating push.  (The amendment restricts the first
part to messages no earlier rule captures: a message such as
"read file push my code" matches a push phrase but is routed by the
earlier file rule, see the counterexample.) -/
theorem c3_push_routes_readonly (env : String → Option String) (raw : String)
    (exec : List String → ExecOutcome) (c : String)
    (h1 : matchReadRule (routerKey raw) = false)
    (h2 : matchWriteRule (routerKey raw) = false)
    (h3 : matchCreateRepoRule (routerKey raw) = false)
    (h4 : matchListReposRule (routerKey raw) = false)
    (h5 : matchUpdateReadmeRule (routerKey raw) = false)
    (h6 : matchCreatePrRule (routerKey raw) = false)
    (h7 : matchBranchesRule (routerKey raw) = false)
    (h8 : matchPushRule (routerKey raw) = true)
    (hc : pyStartsWith (pyStrip c) "git push" = true) :
    router_node env raw =
      some ⟨"shell", [("action", some "push_intent"), ("command", some "git status -b"),
                      ("text", some (pyStrip raw))]⟩
    ∧ run_shell exec c =
      (J.obj [("ok", J.b false), ("error", J.s "command_not_whitelisted"),
              ("stdout", J.s ""), ("stderr", J.s "Command not allowed")], false) := by
  constructor
  · unfold router_node
    simp [h1, h2, h3, h4, h5, h6, h7, h8]
  · have hrej := no_push_in_whitelist (pyStrip c) hc
    unfold run_shell
    simp [hrej]

/-- C3 witness: the plain message routes to the status check, and the
command git push origin main is rejected without spawning. -/
theorem c3_push_routes_readonly_witness :
    (matchPushRule (routerKey "push my code") = true)
    ∧ router_node (fun _ => none) "push my code" =
      some ⟨"shell", [("action", some "push_intent"), ("command", some "git status -b"),
                      ("text", some (pyStrip "push my code"))]⟩
    ∧ run_shell (fun _ => .success "" "") "git push origin main" =
      (J.obj [("ok", J.b false), ("error", J.s "command_not_whitelisted"),
              ("stdout", J.s ""), ("stderr", J.s "Command not allowed")], false) := by
  have h := c3_push_routes_readonly (fun _ => none) "push my code"
    (fun _ => .success "" "") "git push origin main"
    (by decide) (by decide) (by decide) (by decide) (by decide) (by decide) (by decide)
    (by decide) (by decide)
  exact ⟨by decide, h.1, h.2⟩

/-- C3 counterexample: "read file push my code" matches the push-intent
phrase, yet the router emits the file-read call, not the shell status
check, because the earlier file rule fires first. -/
theorem c3_counterexample :
    matchPushRule (routerKey "read file push my code") = true
    ∧ router_node (fun _ => none) "read file push my code" =
      some ⟨"file", [("action", some "read"), ("path", some "push my code"),
                     ("text", some "read file push my code")]⟩ :=
  ⟨by decide, by rfl⟩

/-- C4 (amended): when a message matches the repository-create patterns
and the branch-listing patterns but neither file rule, the router emits
the repository-creation call, not branch-listing: the create-repo rule
is tested earlier and the first matching rule wins.  (The amendment
excludes messages the two file rules capture first, see the
counterexample.) -/
theorem c4_create_repo_priority (env : String → Option String) (raw : String)
    (h1 : matchReadRule (routerKey raw) = false)
    (h2 : matchWriteRule (routerKey raw) = false)
    (h3 : matchCreateRepoRule (routerKey raw) = true)
    (_h4 : matchBranchesRule (routerKey raw) = true) :
    router_node env raw =
      some ⟨"github",
            [("action", some "create_repo"),
             ("name", (repoNameScan (pyLower (pyStrip raw)).data (pyStrip raw).data).map capture),
             ("text", some (pyStrip raw))]⟩ := by
  unfold router_node
  simp [h1, h2, h3]

/-- C4 witness: a message matching both rule families resolves to
repository creation with the extracted name. -/
theorem c4_create_repo_priority_witness :
    (matchCreateRepoRule (routerKey "create repo myproj branches") = true)
    ∧ (matchBranchesRule (routerKey "create repo myproj branches") = true)
    ∧ router_node (fun _ => none) "create repo myproj branches" =
      some ⟨"github", [("action", some "create_repo"), ("name", some "myproj"),
                       ("text", some "create repo myproj branches")]⟩ := by
  refine ⟨by decide, by decide, ?_⟩
  have h := c4_create_repo_priority (fun _ => none) "create repo myproj branches"
    (by decide) (by decide) (by decide) (by decide)
  rw [h]
  rfl

/-- C4 counterexample: "read file then create repo myproj branches"
matches both the repository-create and the branch-listing patterns, yet
the router emits a file-read call because the file rule precedes both. -/
theorem c4_counterexample :
    matchCreateRepoRule (routerKey "read file then create repo myproj branches") = true
    ∧ matchBranchesRule (routerKey "read file then create repo myproj branches") = true
    ∧ router_node (fun _ => none) "read file then create repo myproj branches" =
      some ⟨"file", [("action", some "read"), ("path", some "then create repo myproj branches"),
                     ("text", some "read file then create repo myproj branches")]⟩ :=
  ⟨by decide, by decide, by rfl⟩

/-- Helper for C7: the shape of the cut applied to a long rendering. -/
theorem pyTruncate_of_long (s : String) (h : 2000 < s.length) :
    pyTruncate s = String.mk (s.data.take 2000) ++ "..." := by
  unfold pyTruncate
  simp [h]

/-- Helper for C7: a long rendering is cut to exactly 2000 characters
plus the three-character marker. -/
theorem pyTruncate_len (s : String) (h : 2000 < s.length) :
    (pyTruncate s).length = 2003 := by
  rw [pyTruncate_of_long s h]
  have hd : s.length = s.data.length := rfl
  have hm : ("..." : String).length = 3 := rfl
  simp [String.length_append, List.length_take, hm]
  omega

/-- Helper for C7: cutting an already cut rendering changes nothing. -/
theorem pyTruncate_idem (s : String) : pyTruncate (pyTruncate s) = pyTruncate s := by
  by_cases h : 2000 < s.length
  · have hlen := pyTruncate_len s h
    rw [pyTruncate_of_long s h] at hlen ⊢
    unfold pyTruncate
    rw [if_pos (by omega)]
    have htake : (s.data.take 2000).length = 2000 := by
      have hd : s.length = s.data.length := rfl
      simp [List.length_take]
      omega
    simp [String.data_append, List.take_append_eq_append_take, htake,
          List.take_of_length_le (le_of_eq htake)]
  · simp [pyTruncate, h]

/-- C7: when the JSON rendering of the tool result exceeds 2000
characters, the prompt llm_node builds carries it cut to exactly 2000
characters plus the ... marker (2003 characters in total), and applying
the cut to the rendered string again returns it unchanged, so repeated
rendering of the same tool result yields the same truncated string. -/
theorem c7_tool_output_truncation (st : ChatStateL) (tr : ToolResult)
    (h1 : st.tool_result = some tr)
    (h2 : 2000 < (jdump (toolResultJ tr)).length) :
    buildPrompt st =
      (BMsg.system SYSTEM_INSTR ::
        (st.messages.drop (st.messages.length - 12)).map normalize_message)
      ++ [BMsg.system ("TOOL_OUTPUT: " ++
            (String.mk ((jdump (toolResultJ tr)).data.take 2000) ++ "..."))]
    ∧ (renderToolResult tr).length = 2003
    ∧ pyTruncate (renderToolResult tr) = renderToolResult tr := by
  refine ⟨?_, pyTruncate_len _ h2, pyTruncate_idem _⟩
  have h3 := pyTruncate_of_long _ h2
  simp [buildPrompt, renderToolResult, h1, h3]

/-- C7 witness: escaping leaves a plain letter alone, so the rendering
of an all-letter body has a computable symbolic length. -/
theorem escAll_replicate_a (n : Nat) :
    (escAll (List.replicate n 'a')).length = n := by
  induction n with
  | zero => rfl
  | succ n ih =>
      have ha : escChar 'a' = "a" := rfl
      have ha1 : ("a" : String).length = 1 := rfl
      simp [List.replicate_succ, escAll, ha, ha1, String.length_append, ih]
      omega

/-- C7 witness data: a 2100-character tool result body. -/
def c7big : String := String.mk (List.replicate 2100 'a')

/-- C7 witness data: the stored tool result around the long body. -/
def c7tr : ToolResult := ⟨"shell", J.s c7big⟩

/-- C7 witness helper: the rendering of the witness tool result is 2131
characters long. -/
theorem c7big_len : (jdump (toolResultJ c7tr)).length = 2131 := by
  have hq : ("\"" : String).length = 1 := rfl
  have hdata : c7big.data = List.replicate 2100 'a' := rfl
  have hbody : (jstr c7big).length = 2102 := by
    have he : (escAll (List.replicate 2100 'a')).length = 2100 := escAll_replicate_a 2100
    have hj : jstr c7big = "\"" ++ escAll c7big.data ++ "\"" := rfl
    rw [hj, hdata]
    simp only [String.length_append]
    rw [he, hq]
  have ht : (jstr "tool").length = 6 := rfl
  have hs : (jstr "shell").length = 7 := rfl
  have hr : (jstr "result").length = 8 := rfl
  have hob : ("\x7b" : String).length = 1 := rfl
  have hcb : ("\x7d" : String).length = 1 := rfl
  have hco : (": " : String).length = 2 := rfl
  have hcm : (", " : String).length = 2 := rfl
  have h0 : jdump (toolResultJ c7tr)
      = "\x7b" ++ jdumpFields [("tool", J.s "shell"), ("result", J.s c7big)] ++ "\x7d" := rfl
  have hf1 : jdumpFields [("tool", J.s "shell"), ("result", J.s c7big)]
      = jstr "tool" ++ ": " ++ jstr "shell" ++ ", " ++ jdumpFields [("result", J.s c7big)] := rfl
  have hf2 : jdumpFields [("result", J.s c7big)] = jstr "result" ++ ": " ++ jstr c7big := rfl
  rw [h0, hf1, hf2]
  simp only [String.length_append]
  rw [hbody, ht, hs, hr, hob, hcb, hco, hcm]

/-- C7 witness: the long tool result renders to the 2003-character
truncated string inside the prompt. -/
theorem c7_tool_output_truncation_witness :
    ((⟨[], some c7tr⟩ : ChatStateL).tool_result = some c7tr)
    ∧ (2000 < (jdump (toolResultJ c7tr)).length)
    ∧ (renderToolResult c7tr).length = 2003 :=
  ⟨rfl, by rw [c7big_len] ; omega,
   (c7_tool_output_truncation ⟨[], some c7tr⟩ c7tr rfl (by rw [c7big_len] ; omega)).2.1⟩

/-- C10 (amended): get_default_branch silently returns main whenever
the API call fails (exception or non-2xx status) and also when it
succeeds with a JSON object lacking a default_branch field; a present
field is returned as-is.  It is however not total: a successful
response whose body is not a JSON object makes the .get attribute
access raise, see the counterexample. -/
theorem c10_default_branch_fallback (net : GhReq → SafeResp) (owner repo : String) :
    (respOk (net (.repoInfo owner repo)) = false →
      get_default_branch net owner repo = .ok (J.s "main"))
    ∧ (∀ st fields, net (.repoInfo owner repo) = .resp st (J.obj fields) →
        statusOk st = true → jLookup fields "default_branch" = none →
        get_default_branch net owner repo = .ok (J.s "main"))
    ∧ (∀ st fields v, net (.repoInfo owner repo) = .resp st (J.obj fields) →
        statusOk st = true → jLookup fields "default_branch" = some v →
        get_default_branch net owner repo = .ok v) := by
  refine ⟨?_, ?_, ?_⟩
  · intro h
    unfold get_default_branch
    match hn : net (.repoInfo owner repo) with
    | .raised e => rfl
    | .resp st body =>
        rw [hn] at h
        simp only [respOk] at h
        simp [h]
  · intro st fields hn hst hl
    simp [get_default_branch, hn, hst, jLookupD, hl]
  · intro st fields v hn hst hl
    simp [get_default_branch, hn, hst, jLookupD, hl]

/-- C10 witness: a raised network call falls back to main. -/
theorem c10_default_branch_fallback_witness :
    (respOk ((fun _ : GhReq => SafeResp.raised "connection error") (.repoInfo "o" "r")) = false)
    ∧ get_default_branch (fun _ => SafeResp.raised "connection error") "o" "r" = .ok (J.s "main") :=
  ⟨rfl, (c10_default_branch_fallback (fun _ => SafeResp.raised "connection error") "o" "r").1 rfl⟩

/-- C10 counterexample: a successful call whose body fails to parse as
JSON stores the raw text, and get_default_branch then raises an
AttributeError instead of returning a string, so the function is not
total and does not return main on this resolution failure. -/
theorem c10_counterexample :
    (respOk ((fun _ : GhReq => SafeResp.resp 200 (J.s "<html>")) (.repoInfo "o" "r")) = true)
    ∧ get_default_branch (fun _ => SafeResp.resp 200 (J.s "<html>")) "o" "r" =
      .error "AttributeError: object has no attribute get" :=
  ⟨rfl, rfl⟩

/-- Helper for C8: collecting a page whose entries all map successfully
appends their summaries to the accumulator. -/
theorem collectEntries_all_some (l : List J) (acc : List J)
    (h : ∀ e ∈ l, (reposEntry e).isSome = true) :
    collectEntries l acc = some (acc ++ entriesOf l) := by
  induction l generalizing acc with
  | nil => simp [collectEntries, entriesOf]
  | cons e rest ih =>
      obtain ⟨v, hv⟩ := Option.isSome_iff_exists.mp (h e (by simp))
      have hrest := ih (acc ++ [v]) (fun x hx => h x (List.mem_cons_of_mem e hx))
      simp [collectEntries, hv, entriesOf, List.filterMap_cons, hrest]

/-- Helper for C8: one loop iteration over a full, well-formed page
moves to the next page with the summaries appended. -/
theorem listReposAux_step (net : Nat → SafeResp) (fuel page : Nat) (acc l acc2 : List J)
    (h0 : net page = .resp 200 (J.arr l))
    (hcoll : collectEntries l acc = some acc2)
    (hfull : ¬ l.length < 100) :
    listReposAux net (fuel + 1) page acc = listReposAux net fuel (page + 1) acc2 := by
  simp [listReposAux, h0, respOk, statusOk, respData, hcoll, hfull]

/-- Helper for C8: one loop iteration over a short, well-formed page
returns the accumulated result. -/
theorem listReposAux_stop (net : Nat → SafeResp) (fuel page : Nat) (acc l acc2 : List J)
    (h0 : net page = .resp 200 (J.arr l))
    (hcoll : collectEntries l acc = some acc2)
    (hshort : l.length < 100) :
    listReposAux net (fuel + 1) page acc = .out (listReposDone acc2) := by
  simp [listReposAux, h0, respOk, statusOk, respData, hcoll, hshort]

/-- Helper for C8: running the loop over a sequence of full pages closed
by one short page consumes exactly one fuel per page and returns the
accumulated summaries of every fetched entry, in order. -/
theorem listReposAux_pages (ps : List (List J)) :
    ∀ (net : Nat → SafeResp) (page : Nat) (acc : List J),
    (∀ i, (h : i < ps.length) → net (page + i) = .resp 200 (J.arr (ps.get ⟨i, h⟩))) →
    (∀ i, (h : i + 1 < ps.length) → (ps.get ⟨i, by omega⟩).length = 100) →
    (∀ l, ps.getLast? = some l → l.length < 100) →
    (∀ l ∈ ps, ∀ e ∈ l, (reposEntry e).isSome = true) →
    ps ≠ [] →
    listReposAux net ps.length page acc = .out (listReposDone (acc ++ entriesOf ps.flatten)) := by
  induction ps with
  | nil => intro net page acc _ _ _ _ hne; exact absurd rfl hne
  | cons l rest ih =>
      intro net page acc hserve hfull hlast hobj _
      have h0 : net page = .resp 200 (J.arr l) := by
        have := hserve 0 (by simp)
        simpa using this
      have hcoll := collectEntries_all_some l acc (hobj l (by simp))
      cases rest with
      | nil =>
          have hl : l.length < 100 := hlast l rfl
          have := listReposAux_stop net 0 page acc l (acc ++ entriesOf l) h0 hcoll hl
          simp only [List.length_cons, List.length_nil] at this ⊢
          rw [this]
          simp
      | cons l2 rest2 =>
          have hl : l.length = 100 := by
            have := hfull 0 (by simp)
            simpa using this
          have hrec := ih net (page + 1) (acc ++ entriesOf l)
            (fun i h => by
              have h2 : i + 1 < (l :: l2 :: rest2).length := by
                simp only [List.length_cons] at h ⊢
                omega
              have hs := hserve (i + 1) h2
              have heq : page + (i + 1) = page + 1 + i := by omega
              rw [heq] at hs
              simpa using hs)
            (fun i h => by
              have h2 : (i + 1) + 1 < (l :: l2 :: rest2).length := by
                simp only [List.length_cons] at h ⊢
                omega
              have hs := hfull (i + 1) h2
              simpa using hs)
            (fun x hx => hlast x (by simpa [List.getLast?_cons_cons] using hx))
            (fun x hx => hobj x (by simp [hx]))
            (by simp)
          have hnotlt : ¬ l.length < 100 := by omega
          have hstep := listReposAux_step net (l2 :: rest2).length page acc l
            (acc ++ entriesOf l) h0 hcoll hnotlt
          simp only [List.length_cons] at hstep hrec ⊢
          rw [hstep, hrec]
          simp [entriesOf, List.filterMap_append]

/-- C8: when the network serves pages ps of repository entries (page i
of the listing is ps i), every page except the last is full at the page
size 100, the last page is shorter, and every entry is a JSON object,
then list_repos terminates within ps.length loop iterations and returns
the ok dict whose repositories list is exactly the concatenated
summaries of every fetched page: each fetched entry appears exactly
once, in order, with no duplication and no lost page. -/
theorem c8_list_repos_pagination (ps : List (List J)) (net : Nat → SafeResp)
    (hserve : ∀ i, (h : i < ps.length) → net (i + 1) = .resp 200 (J.arr (ps.get ⟨i, h⟩)))
    (hfull : ∀ i, (h : i + 1 < ps.length) → (ps.get ⟨i, by omega⟩).length = 100)
    (hlast : ∀ l, ps.getLast? = some l → l.length < 100)
    (hobj : ∀ l ∈ ps, ∀ e ∈ l, (reposEntry e).isSome = true)
    (hne : ps ≠ []) :
    list_repos net ps.length = .out (listReposDone (entriesOf ps.flatten)) := by
  have h := listReposAux_pages ps net 1 []
    (fun i hi => by
      have := hserve i hi
      have heq : 1 + i = i + 1 := by omega
      rw [heq]
      exact this)
    hfull hlast hobj hne
  simpa [list_repos] using h

/-- C8 witness data: a synthetic repository entry with a numbered name. -/
def c8entry (i : Nat) : J := J.obj [("name", J.n i)]

/-- C8 witness data: the summary list_repos derives from c8entry. -/
def c8out (i : Nat) : J :=
  J.obj [("name", J.n i), ("full_name", J.null), ("private", J.b false),
         ("html_url", J.null)]

/-- C8 witness data: three pages of sizes 100, 100 and 37. -/
def c8pages : List (List J) :=
  [(List.range 100).map c8entry,
   ((List.range 100).map (fun i => c8entry (100 + i))),
   ((List.range 37).map (fun i => c8entry (200 + i)))]

/-- C8 witness data: the network serving the three pages. -/
def c8net : Nat → SafeResp := fun p =>
  if p = 1 then .resp 200 (J.arr ((List.range 100).map c8entry))
  else if p = 2 then .resp 200 (J.arr ((List.range 100).map (fun i => c8entry (100 + i))))
  else .resp 200 (J.arr ((List.range 37).map (fun i => c8entry (200 + i))))

/-- C8 witness helper: each synthetic entry maps to its summary. -/
theorem c8entry_maps (i : Nat) : reposEntry (c8entry i) = some (c8out i) := rfl

/-- C8 witness helper: the summaries of a mapped page. -/
theorem entriesOf_c8 (l : List Nat) (f : Nat → Nat) :
    entriesOf (l.map (fun i => c8entry (f i))) = l.map (fun i => c8out (f i)) := by
  induction l with
  | nil => rfl
  | cons a rest ih => simp [entriesOf, List.filterMap_cons, c8entry_maps] at ih ⊢ ; exact ih

/-- C8 witness: on synthetic pages of sizes [100, 100, 37] the loop
stops after the third page and returns all 237 distinct summaries
exactly once, with no duplicates. -/
theorem c8_list_repos_pagination_witness :
    (c8pages.map List.length = [100, 100, 37])
    ∧ list_repos c8net 3 = .out (listReposDone (entriesOf c8pages.flatten))
    ∧ (entriesOf c8pages.flatten).length = 237
    ∧ (entriesOf c8pages.flatten).Nodup := by
  have hflat : entriesOf c8pages.flatten
      = ((List.range 100) ++ ((List.range 100).map (fun i => 100 + i))
          ++ ((List.range 37).map (fun i => 200 + i))).map c8out := by
    have h1 := entriesOf_c8 (List.range 100) id
    have h2 := entriesOf_c8 (List.range 100) (fun i => 100 + i)
    have h3 := entriesOf_c8 (List.range 37) (fun i => 200 + i)
    simp only [id] at h1
    simp [c8pages, entriesOf, List.filterMap_append] at h1 h2 h3 ⊢
    simp [h1, h2, h3]
    rfl
  have hnat : ((List.range 100) ++ ((List.range 100).map (fun i => 100 + i))
      ++ ((List.range 37).map (fun i => 200 + i))) = List.range 237 := by
    rw [show (237 : Nat) = 200 + 37 from rfl, List.range_add,
        show (200 : Nat) = 100 + 100 from rfl, List.range_add]
  refine ⟨by decide, ?_, ?_, ?_⟩
  · have h := c8_list_repos_pagination c8pages c8net
      (fun i hi => by
        have hi3 : i < 3 := by simpa [c8pages] using hi
        rcases i with _ | _ | _ | n
        · rfl
        · rfl
        · rfl
        · omega)
      (fun i hi => by
        have hi3 : i + 1 < 3 := by simpa [c8pages] using hi
        rcases i with _ | _ | n
        · rfl
        · rfl
        · omega)
      (fun l hl => by
        simp [c8pages] at hl
        subst hl
        decide)
      (fun l hl e he => by
        simp [c8pages] at hl
        rcases hl with rfl | rfl | rfl <;>
          · simp only [List.mem_map] at he
            obtain ⟨i, _, rfl⟩ := he
            simp [c8entry_maps])
      (by simp [c8pages])
    simpa [c8pages] using h
  · rw [hflat, hnat]
    simp
  · rw [hflat, hnat]
    refine List.Nodup.map ?_ (List.nodup_range 237)
    intro a b hab
    simpa [c8out] using hab

/-! Result-shape predicates and lemmas for C5. -/

/-- The result mapping is a dict carrying a boolean ok flag. -/
def hasOkFlag : J → Bool
  | J.obj fields =>
      match jLookup fields "ok" with
      | some (J.b _) => true
      | _ => false
  | _ => false

/-- The fix_repo result shape: no top-level ok flag, but tests and lint
sub-results that each carry one. -/
def fixRepoShape : J → Bool
  | J.obj fields =>
      (match jLookup fields "tests" with
       | some t => hasOkFlag t
       | none => false)
      && (match jLookup fields "lint" with
          | some t => hasOkFlag t
          | none => false)
      && (jLookup fields "ok").isNone
  | _ => false

/-- Every run_shell result dict carries ok. -/
theorem hasOkFlag_run_shell (exec : List String → ExecOutcome) (c : String) :
    hasOkFlag (run_shell exec c).1 = true := by
  simp only [run_shell]
  split
  · cases exec (shlexSplit (pyStrip c)) <;> rfl
  · rfl

/-- Every read_file result dict carries ok. -/
theorem hasOkFlag_read_file (root : List String) (fs : List String → Option String)
    (path : String) : hasOkFlag (read_file root fs path) = true := by
  unfold read_file
  split
  · rfl
  · split <;> rfl

/-- Every write_file result dict carries ok. -/
theorem hasOkFlag_write_file (root : List String) (fs : List String → Option String)
    (path content : String) : hasOkFlag (write_file root fs path content).1 = true := by
  unfold write_file
  split <;> rfl

/-- Every value create_repository returns (rather than raises) carries ok. -/
theorem ok_create_repository (net : GhReq → SafeResp) (n d : String) (p : Bool) (v : J)
    (h : create_repository net n d p = .ok v) : hasOkFlag v = true := by
  unfold create_repository at h
  split at h
  · split at h <;> (injection h with h2 ; subst h2 ; rfl)
  · exact Except.noConfusion h

/-- Every value create_or_update_file returns carries ok. -/
theorem ok_create_or_update_file (net : GhReq → SafeResp) (owner repo : Option String)
    (path content message : String) (v : J)
    (h : create_or_update_file net owner repo path content message = .ok v) :
    hasOkFlag v = true := by
  unfold create_or_update_file at h
  split at h
  · split at h
    · injection h with h2 ; subst h2 ; rfl
    · split at h
      · exact Except.noConfusion h
      · dsimp only at h
        split at h
        · exact Except.noConfusion h
        · injection h with h2 ; subst h2 ; rfl
  · injection h with h2 ; subst h2 ; rfl

/-- Every value list_branches returns carries ok. -/
theorem ok_list_branches (net : GhReq → SafeResp) (owner repo : String) (v : J)
    (h : list_branches net owner repo = .ok v) : hasOkFlag v = true := by
  unfold list_branches at h
  split at h
  · exact Except.noConfusion h
  · split at h
    · split at h
      · split at h
        · injection h with h2 ; subst h2 ; rfl
        · exact Except.noConfusion h
      · exact Except.noConfusion h
    · injection h with h2 ; subst h2 ; rfl

/-- Every value create_pull_request returns carries ok. -/
theorem ok_create_pull_request (net : GhReq → SafeResp) (owner repo head : Option String)
    (base : J) (title body : String) (v : J)
    (h : create_pull_request net owner repo head base title body = .ok v) :
    hasOkFlag v = true := by
  unfold create_pull_request at h
  split at h
  · split at h
    · injection h with h2 ; subst h2 ; rfl
    · dsimp only at h
      split at h
      · split at h <;> (injection h with h2 ; subst h2 ; rfl)
      · exact Except.noConfusion h
  · injection h with h2 ; subst h2 ; rfl

/-- Every dict the list_repos loop returns carries ok. -/
theorem out_listReposAux (net : Nat → SafeResp) (fuel : Nat) :
    ∀ (page : Nat) (acc : List J) (v : J),
    listReposAux net fuel page acc = .out v → hasOkFlag v = true := by
  induction fuel with
  | zero => intro page acc v h; exact LROut.noConfusion h
  | succ fuel ih =>
      intro page acc v h
      simp only [listReposAux] at h
      split at h
      · split at h
        · split at h
          · exact LROut.noConfusion h
          · split at h
            · injection h with h2 ; subst h2 ; rfl
            · exact ih _ _ _ h
        · injection h with h2 ; subst h2 ; rfl
      · injection h with h2 ; subst h2 ; rfl

/-- A github branch that returns (rather than raises) returned the Except
payload as the tool result. -/
theorem ghDone_done (tool : String) (r : Except String J) (tr : ToolResult)
    (h : ghDone tool r = .done (some tr)) : r = .ok tr.result := by
  unfold ghDone at h
  split at h
  · injection h with h2
    injection h2 with h3
    subst h3
    rfl
  · exact TNOut.noConfusion h

/-- The loop entry point inherits the ok flag of the loop. -/
theorem out_list_repos (net : Nat → SafeResp) (fuel : Nat) (v : J)
    (h : list_repos net fuel = .out v) : hasOkFlag v = true :=
  out_listReposAux net fuel 1 [] v h

/-- Every tool result of the shell block carries ok. -/
theorem shellBlock_shape (ctx : Ctx) (args : List (String × Option String))
    (tr : ToolResult) (h : shellBlock ctx args = .done (some tr)) :
    hasOkFlag tr.result = true := by
  unfold shellBlock at h
  dsimp only at h
  split at h
  · exact TNOut.noConfusion h
  · split at h
    · injection h with h2 ; injection h2 with h3 ; subst h3
      rfl
    · injection h with h2 ; injection h2 with h3 ; subst h3
      exact hasOkFlag_run_shell _ _

/-- Every tool result of the file block carries ok. -/
theorem fileBlock_shape (ctx : Ctx) (args : List (String × Option String))
    (tr : ToolResult) (h : fileBlock ctx args = .done (some tr)) :
    hasOkFlag tr.result = true := by
  unfold fileBlock at h
  dsimp only at h
  split at h
  · injection h with h2 ; injection h2 with h3 ; subst h3
    exact hasOkFlag_read_file _ _ _
  · split at h
    · split at h
      · injection h with h2 ; injection h2 with h3 ; subst h3
        rfl
      · split at h
        · injection h with h2 ; injection h2 with h3 ; subst h3
          rfl
        · injection h with h2 ; injection h2 with h3 ; subst h3
          exact hasOkFlag_write_file _ _ _ _
    · injection h with h2
      exact Option.noConfusion h2

/-- Every tool result of the github block carries ok. -/
theorem githubBlock_shape (ctx : Ctx) (args : List (String × Option String))
    (tr : ToolResult) (h : githubBlock ctx args = .done (some tr)) :
    hasOkFlag tr.result = true := by
  unfold githubBlock at h
  dsimp only at h
  split at h
  · -- list_repos
    split at h
    · rename_i v heq
      injection h with h2 ; injection h2 with h3 ; subst h3
      exact out_list_repos _ _ _ heq
    · exact TNOut.noConfusion h
    · exact TNOut.noConfusion h
  · split at h
    · -- create_repo
      split at h
      · injection h with h2 ; injection h2 with h3 ; subst h3
        rfl
      · split at h
        · injection h with h2 ; injection h2 with h3 ; subst h3
          rfl
        · exact ok_create_repository _ _ _ _ _ (ghDone_done _ _ _ h)
    · split at h
      · -- update_file
        split at h
        · injection h with h2 ; injection h2 with h3 ; subst h3
          rfl
        · split at h
          · injection h with h2 ; injection h2 with h3 ; subst h3
            rfl
          · exact ok_create_or_update_file _ _ _ _ _ _ _ (ghDone_done _ _ _ h)
      · split at h
        · -- create_pr
          split at h
          · injection h with h2 ; injection h2 with h3 ; subst h3
            rfl
          · split at h
            · injection h with h2 ; injection h2 with h3 ; subst h3
              rfl
            · split at h
              · exact TNOut.noConfusion h
              · exact ok_create_pull_request _ _ _ _ _ _ _ _ (ghDone_done _ _ _ h)
        · split at h
          · -- list_branches
            split at h
            · injection h with h2 ; injection h2 with h3 ; subst h3
              rfl
            · split at h
              · injection h with h2 ; injection h2 with h3 ; subst h3
                rfl
              · exact ok_list_branches _ _ _ _ (ghDone_done _ _ _ h)
          · -- unknown github action
            injection h with h2 ; injection h2 with h3 ; subst h3
            rfl

/-- Every tool result of the repo block carries ok or has the fix_repo
shape. -/
theorem repoBlock_shape (ctx : Ctx) (args : List (String × Option String))
    (tr : ToolResult) (h : repoBlock ctx args = .done (some tr)) :
    hasOkFlag tr.result = true ∨ fixRepoShape tr.result = true := by
  unfold repoBlock at h
  dsimp only at h
  split at h
  · -- fix_repo
    injection h with h2 ; injection h2 with h3 ; subst h3
    right
    have h1 := hasOkFlag_run_shell ctx.exec "pytest -q"
    have h2 := hasOkFlag_run_shell ctx.exec "flake8 ."
    have e1 : jLookup [("tests", (run_shell ctx.exec "pytest -q").1),
        ("lint", (run_shell ctx.exec "flake8 .").1)] "tests"
        = some (run_shell ctx.exec "pytest -q").1 := rfl
    have e2 : jLookup [("tests", (run_shell ctx.exec "pytest -q").1),
        ("lint", (run_shell ctx.exec "flake8 .").1)] "lint"
        = some (run_shell ctx.exec "flake8 .").1 := rfl
    have e3 : jLookup [("tests", (run_shell ctx.exec "pytest -q").1),
        ("lint", (run_shell ctx.exec "flake8 .").1)] "ok" = none := rfl
    simp [fixRepoShape, e1, e2, e3, h1, h2]
  · injection h with h2 ; injection h2 with h3 ; subst h3
    left ; rfl

/-- C5 (amended): every tool result tool_node produces carries a boolean
ok flag in its result mapping, except the repo/fix_repo result, which
instead carries tests and lint sub-results that each carry an ok flag
(the fix_repo result dict itself has no top-level ok key, see the
counterexample). -/
theorem c5_executor_result_shape (ctx : Ctx) (tc : Option ToolCall) (tr : ToolResult)
    (h : tool_node ctx tc = .done (some tr)) :
    hasOkFlag tr.result = true ∨ fixRepoShape tr.result = true := by
  cases tc with
  | none =>
      simp only [tool_node] at h
      injection h with h2
      exact Option.noConfusion h2
  | some t =>
      simp only [tool_node] at h
      split at h
      · exact Or.inl (shellBlock_shape _ _ _ h)
      · split at h
        · exact Or.inl (fileBlock_shape _ _ _ h)
        · split at h
          · exact Or.inl (githubBlock_shape _ _ _ h)
          · split at h
            · exact repoBlock_shape _ _ _ h
            · injection h with h2
              exact Option.noConfusion h2

/-- C5 witness: a whitelisted shell exec call produces a result carrying
ok. -/
def c5ctx : Ctx :=
  ⟨fun _ => .success "" "", [], fun _ => none, fun _ => .raised "off",
   fun _ => none, 0, "", 1⟩

/-- C5 witness: the shell exec tool call on the command ls. -/
theorem c5_executor_result_shape_witness :
    (tool_node c5ctx (some ⟨"shell", [("action", some "exec"), ("command", some "ls"),
        ("text", some "ls")]⟩)
      = .done (some ⟨"shell", J.obj [("ok", J.b true), ("stdout", J.s ""), ("stderr", J.s "")]⟩))
    ∧ (hasOkFlag (J.obj [("ok", J.b true), ("stdout", J.s ""), ("stderr", J.s "")]) = true
        ∨ fixRepoShape (J.obj [("ok", J.b true), ("stdout", J.s ""), ("stderr", J.s "")]) = true) :=
  ⟨rfl, c5_executor_result_shape c5ctx
    (some ⟨"shell", [("action", some "exec"), ("command", some "ls"), ("text", some "ls")]⟩)
    ⟨"shell", J.obj [("ok", J.b true), ("stdout", J.s ""), ("stderr", J.s "")]⟩ rfl⟩

/-- C5 counterexample: the fix_repo tool call produces a result mapping
that carries no ok flag at all, only the tests and lint sub-results, so
the claim that every result mapping contains an ok flag fails. -/
theorem c5_counterexample :
    (tool_node c5ctx (some ⟨"repo", [("action", some "fix_repo"), ("text", some "fix my repo")]⟩)
      = .done (some ⟨"repo",
          J.obj [("tests", J.obj [("ok", J.b true), ("stdout", J.s ""), ("stderr", J.s "")]),
                 ("lint", J.obj [("ok", J.b false), ("error", J.s "command_not_whitelisted"),
                                 ("stdout", J.s ""), ("stderr", J.s "Command not allowed")])]⟩))
    ∧ hasOkFlag
        (J.obj [("tests", J.obj [("ok", J.b true), ("stdout", J.s ""), ("stderr", J.s "")]),
                ("lint", J.obj [("ok", J.b false), ("error", J.s "command_not_whitelisted"),
                                ("stdout", J.s ""), ("stderr", J.s "Command not allowed")])])
      = false :=
  ⟨rfl, rfl⟩

end DevAgent
